import Mathlib

/-!
Shallow embedding of the feed session tracker of src/components/FeedScreen.tsx
and of the interaction sink recordInteraction of the restaurants library
module, together with proofs of the behavioural properties stated in the
specification (dwell-time accounting, skip emission per index transition,
like/unlike toggling, load error handling, authentication gating of the sink).

Timestamps and dwell times are modelled as integers (JavaScript's
Date.now arithmetic on numbers); the feed is a list of items, and the
tracker's mutable refs (currentIndexRef, viewStartRef) together with the
restaurants/loading/error React state form one explicit state record.
Every operation is a pure function from a state (plus the inputs the
callback receives, including the current time) to the next state and the
list of interaction events it emits via recordInteraction.
-/

namespace CastIron

/-- A feed item. Only the stable id matters to the tracker logic
(recordViewEnd reads restaurant.id); the display attributes of the
Restaurant type play no role in any claimed property and are omitted. -/
structure Restaurant where
  id : String
  deriving Repr, DecidableEq

/-- The action tag of an interaction, the union type of the source. -/
inductive Action where
  | like
  | skip
  | unlike
  deriving Repr, DecidableEq

/-- An interaction event as emitted by the tracker: the call
recordInteraction(restaurant.id, action, timeSpentMs) in recordViewEnd. -/
structure InteractionEvent where
  itemId : String
  action : Action
  dwellMs : Int
  deriving Repr, DecidableEq

/-- The state owned by FeedScreen: the restaurants/loading/error React
state plus the two mutable refs currentIndexRef and viewStartRef. -/
structure TrackerState where
  restaurants : List Restaurant
  currentIndex : Nat
  viewStart : Int
  loading : Bool
  error : Option String
  deriving Repr, DecidableEq

/-- The state at mount: restaurants = [], loading = true, error = null,
viewStartRef = Date.now() at mount, currentIndexRef = 0. -/
def initialState (mountTime : Int) : TrackerState :=
  ⟨[], 0, mountTime, true, none⟩

/-- The three ways a load can resolve: permission denial, a thrown fetch
error, or success with the fetched data. -/
inductive LoadResult where
  | permissionDenied
  | fetchFailure (msg : String)
  | success (data : List Restaurant)

/-- The error message set when location permission is not granted. -/
def permissionDeniedMessage : String :=
  "Location permission is required to find nearby restaurants."

/-- loadRestaurants, by result of the asynchronous part: on permission
denial or a thrown error it sets the error message and empties the feed;
on success it stores the data with error still cleared; the finally block
always clears loading. It never touches currentIndexRef or viewStartRef. -/
def loadRestaurants (s : TrackerState) : LoadResult → TrackerState
  | .permissionDenied =>
      { s with error := some permissionDeniedMessage, restaurants := [], loading := false }
  | .fetchFailure msg =>
      { s with error := some msg, restaurants := [], loading := false }
  | .success data =>
      { s with error := none, restaurants := data, loading := false }

/-- recordViewEnd(index, action): looks up restaurants[index]; if absent it
returns without emitting; otherwise it emits one event whose dwell is
Date.now() minus viewStartRef.current. It does not itself mutate state. -/
def recordViewEnd (s : TrackerState) (index : Nat) (action : Action) (now : Int) :
    Option InteractionEvent :=
  match s.restaurants[index]? with
  | none => none
  | some r => some ⟨r.id, action, now - s.viewStart⟩

/-- handleViewableItemsChanged: reads viewableItems[0]; if it is absent or
its index is null the call returns; otherwise, when the reported index
differs from currentIndexRef, it emits a skip for the previous index via
recordViewEnd (reading the old viewStart) and then adopts the new index
and resets viewStartRef to now. Each list entry models one viewable
item's (index : number | null) field. -/
def handleViewableItemsChanged (s : TrackerState) (viewableItems : List (Option Nat))
    (now : Int) : TrackerState × List InteractionEvent :=
  match viewableItems.head? with
  | none => (s, [])
  | some none => (s, [])
  | some (some newIndex) =>
      if s.currentIndex ≠ newIndex then
        ({ s with currentIndex := newIndex, viewStart := now },
          (recordViewEnd s s.currentIndex Action.skip now).toList)
      else
        (s, [])

/-- The common body of handleLike and handleUnlike (the spec's
onUserAction): recordViewEnd(index, action) followed by an unconditional
reset of viewStartRef to now. -/
def onUserAction (s : TrackerState) (index : Nat) (action : Action) (now : Int) :
    TrackerState × List InteractionEvent :=
  ({ s with viewStart := now }, (recordViewEnd s index action now).toList)

/-- handleLike(index). -/
def handleLike (s : TrackerState) (index : Nat) (now : Int) :
    TrackerState × List InteractionEvent :=
  onUserAction s index Action.like now

/-- handleUnlike(index). -/
def handleUnlike (s : TrackerState) (index : Nat) (now : Int) :
    TrackerState × List InteractionEvent :=
  onUserAction s index Action.unlike now

/-- handleToggleLike of ActionBar: if liked, clear it and call onUnlike;
otherwise set it, call onLike and start the (purely presentational)
animation. Returns the new liked flag, the new tracker state and the
events emitted through the tracker. -/
def handleToggleLike (liked : Bool) (s : TrackerState) (index : Nat) (now : Int) :
    Bool × TrackerState × List InteractionEvent :=
  if liked then
    (false, handleUnlike s index now)
  else
    (true, handleLike s index now)

/-- Feeds a list of timed dominant-index reports (index, time) one at a
time to handleViewableItemsChanged, collecting all emitted events. -/
def runReports (s : TrackerState) : List (Nat × Int) → TrackerState × List InteractionEvent
  | [] => (s, [])
  | (i, t) :: rest =>
      let step := handleViewableItemsChanged s [some i] t
      let tail := runReports step.1 rest
      (tail.1, step.2 ++ tail.2)

/-- Decidable check that no two adjacent reports carry the same index. -/
def distinctAdjacent : List (Nat × Int) → Bool
  | (i, _) :: (j, u) :: rest => decide (i ≠ j) && distinctAdjacent ((j, u) :: rest)
  | _ => true

/-- Decidable check that every reported index is valid for the feed. -/
def allValidIndices (feed : List Restaurant) (reports : List (Nat × Int)) : Bool :=
  reports.all fun p => decide (p.1 < feed.length)

/-- Modelled from the spec: the event list the specification promises for
a report sequence, one skip per adjacent pair of reports, the k-th
carrying the id of the item at the earlier report's index and the elapsed
time between the two reports. -/
def specSkips (feed : List Restaurant) : List (Nat × Int) → List InteractionEvent
  | (i, t) :: (j, u) :: rest =>
      ((feed[i]?).elim [] fun r => [⟨r.id, Action.skip, u - t⟩])
        ++ specSkips feed ((j, u) :: rest)
  | _ => []

/-- The authenticated user of a Supabase session. -/
structure SessionUser where
  id : String
  deriving Repr, DecidableEq

/-- A Supabase session; the source guards on session?.user, so the user
field is kept optional to model that check faithfully. -/
structure Session where
  user : Option SessionUser
  deriving Repr, DecidableEq

/-- A row of the restaurant interactions table as built by the insert. -/
structure InteractionRow where
  user_id : String
  place_id : String
  action : Action
  time_spent_ms : Int
  deriving Repr, DecidableEq

/-- recordInteraction of the restaurants library module: reads the current
session; if there is no session user it returns without inserting;
otherwise it inserts exactly one row. The result lists the inserted rows. -/
def recordInteraction (session : Option Session) (placeId : String) (action : Action)
    (timeSpentMs : Int) : List InteractionRow :=
  match session.bind Session.user with
  | none => []
  | some u => [⟨u.id, placeId, action, timeSpentMs⟩]

/-! ## Unfolding equations -/

/-- Unfolding runReports on a cons report list. -/
lemma runReports_cons (s : TrackerState) (i : Nat) (t : Int) (rest : List (Nat × Int)) :
    runReports s ((i, t) :: rest)
      = ((runReports (handleViewableItemsChanged s [some i] t).1 rest).1,
          (handleViewableItemsChanged s [some i] t).2
            ++ (runReports (handleViewableItemsChanged s [some i] t).1 rest).2) := rfl

/-- Unfolding specSkips on two or more reports. -/
lemma specSkips_cons (feed : List Restaurant) (i : Nat) (t : Int) (j : Nat) (u : Int)
    (rest : List (Nat × Int)) :
    specSkips feed ((i, t) :: (j, u) :: rest)
      = ((feed[i]?).elim [] fun r => [⟨r.id, Action.skip, u - t⟩])
        ++ specSkips feed ((j, u) :: rest) := rfl

/-- specSkips of a single report is empty. -/
lemma specSkips_single (feed : List Restaurant) (i : Nat) (t : Int) :
    specSkips feed [(i, t)] = [] := rfl

/-- specSkips of no reports is empty. -/
lemma specSkips_nil (feed : List Restaurant) : specSkips feed [] = [] := rfl

/-! ## Basic lemmas about recordViewEnd -/

/-- On an out-of-range index, recordViewEnd returns without emitting. -/
lemma recordViewEnd_eq_none (s : TrackerState) (index : Nat) (action : Action) (now : Int)
    (h : s.restaurants.length ≤ index) :
    recordViewEnd s index action now = none := by
  simp [recordViewEnd, List.getElem?_eq_none h]

/-- On a valid index, recordViewEnd emits the event for that item with
dwell measured from the current viewStart. -/
lemma recordViewEnd_eq_some (s : TrackerState) (index : Nat) (r : Restaurant)
    (action : Action) (now : Int) (h : s.restaurants[index]? = some r) :
    recordViewEnd s index action now = some ⟨r.id, action, now - s.viewStart⟩ := by
  simp [recordViewEnd, h]

/-! ## The skip-per-transition lemma -/

/-- When the tracker is synchronised with the head report (currentIndex is
the last reported index and viewStart its time), running the remaining
reports emits exactly the spec's skip list for the whole sequence. -/
lemma runReports_synced (rest : List (Nat × Int)) :
    ∀ (s : TrackerState) (i : Nat) (t : Int),
    s.currentIndex = i → s.viewStart = t → i < s.restaurants.length →
    (∀ q ∈ rest, q.1 < s.restaurants.length) →
    distinctAdjacent ((i, t) :: rest) = true →
    (runReports s rest).2 = specSkips s.restaurants ((i, t) :: rest) := by
  induction rest with
  | nil =>
    intro s i t hci hvs hi hall hd
    simp [runReports, specSkips_single]
  | cons p rest ih =>
    obtain ⟨j, u⟩ := p
    intro s i t hci hvs hi hall hd
    have hdp : i ≠ j ∧ distinctAdjacent ((j, u) :: rest) = true := by
      simpa [distinctAdjacent] using hd
    have hj : j < s.restaurants.length := hall (j, u) (List.mem_cons_self _ _)
    have hall2 : ∀ q ∈ rest, q.1 < s.restaurants.length :=
      fun q hq => hall q (List.mem_cons_of_mem _ hq)
    have hri : s.restaurants[i]? = some (s.restaurants.get ⟨i, hi⟩) := by
      rw [List.getElem?_eq_getElem hi, List.get_eq_getElem]
    have hstep : handleViewableItemsChanged s [some j] u
        = ({ s with currentIndex := j, viewStart := u },
            [⟨(s.restaurants.get ⟨i, hi⟩).id, Action.skip, u - t⟩]) := by
      simp [handleViewableItemsChanged, recordViewEnd, hci, hvs, hdp.1, hri]
    have ihres := ih { s with currentIndex := j, viewStart := u } j u rfl rfl hj hall2 hdp.2
    rw [runReports_cons, hstep, specSkips_cons, hri]
    simp only [Option.elim]
    rw [ihres]

/-- Under all-valid indices, the spec's skip list has one entry per
adjacent pair of reports. -/
lemma specSkips_length (feed : List Restaurant) :
    ∀ reports : List (Nat × Int), (∀ p ∈ reports, p.1 < feed.length) →
    (specSkips feed reports).length = reports.length - 1 := by
  intro reports
  induction reports with
  | nil => intro h; simp [specSkips_nil]
  | cons p rest ih =>
    obtain ⟨i, t⟩ := p
    cases rest with
    | nil => intro h; simp [specSkips_single]
    | cons q rest2 =>
      obtain ⟨j, u⟩ := q
      intro h
      have hi : i < feed.length := h (i, t) (List.mem_cons_self _ _)
      have h2 : ∀ p ∈ (j, u) :: rest2, p.1 < feed.length :=
        fun p hp => h p (List.mem_cons_of_mem _ hp)
      have hri : feed[i]? = some (feed.get ⟨i, hi⟩) := by
        rw [List.getElem?_eq_getElem hi, List.get_eq_getElem]
      rw [specSkips_cons, hri]
      simp only [Option.elim, List.length_append]
      rw [ih h2]
      simp only [List.length_cons, List.length_nil]
      omega

/-! ## Claim theorems -/

/-- Claim C6: reporting the dominant index already current is a no-op:
no event is emitted and the whole tracker state is unchanged, whatever
further viewable items accompany the report. -/
theorem duplicate_report_noop (s : TrackerState) (rest : List (Option Nat)) (now : Int) :
    handleViewableItemsChanged s (some s.currentIndex :: rest) now = (s, []) := by
  simp [handleViewableItemsChanged]

/-- Counterexample to claim C2 as stated: a successful load does not reset
currentIndex to 0 nor viewStart to the load time; from a state with
currentIndex = 1 and viewStart = 5 both survive the reload unchanged. -/
theorem load_reset_counterexample :
    (loadRestaurants (⟨[⟨"a"⟩, ⟨"b"⟩], 1, 5, false, none⟩ : TrackerState)
        (LoadResult.success [⟨"c"⟩])).currentIndex = 1
    ∧ (1 : Nat) ≠ 0
    ∧ (loadRestaurants (⟨[⟨"a"⟩, ⟨"b"⟩], 1, 5, false, none⟩ : TrackerState)
        (LoadResult.success [⟨"c"⟩])).viewStart = 5 := by
  refine ⟨rfl, by decide, rfl⟩

/-- Claim C2 (amended): a successful load replaces the feed wholesale and
clears the error and loading flags, but leaves currentIndex and viewStart
exactly as they were; they are not reset by the load. -/
theorem load_success_replaces_feed (s : TrackerState) (data : List Restaurant) :
    loadRestaurants s (LoadResult.success data)
      = { s with restaurants := data, error := none, loading := false }
    ∧ (loadRestaurants s (LoadResult.success data)).currentIndex = s.currentIndex
    ∧ (loadRestaurants s (LoadResult.success data)).viewStart = s.viewStart :=
  ⟨rfl, rfl, rfl⟩

/-- Claim C7: a failed load (permission denial or fetch failure) leaves the
feed empty and exposes an error message, and any subsequent dominant-item
report on the emptied feed emits no event (and, the functions being total,
cannot crash). -/
theorem load_failure_safe (s : TrackerState) (msg : String) (v : Option Nat) (t : Int) :
    (loadRestaurants s LoadResult.permissionDenied).restaurants = []
    ∧ (loadRestaurants s LoadResult.permissionDenied).error = some permissionDeniedMessage
    ∧ (loadRestaurants s (LoadResult.fetchFailure msg)).restaurants = []
    ∧ (loadRestaurants s (LoadResult.fetchFailure msg)).error = some msg
    ∧ (handleViewableItemsChanged (loadRestaurants s LoadResult.permissionDenied) [v] t).2 = []
    ∧ (handleViewableItemsChanged (loadRestaurants s (LoadResult.fetchFailure msg)) [v] t).2
        = [] := by
  refine ⟨rfl, rfl, rfl, rfl, ?_, ?_⟩ <;>
    rcases v with _ | k <;>
      simp [handleViewableItemsChanged, loadRestaurants, recordViewEnd] <;>
        split <;> rfl

/-- Claim C8: onUserAction (the body of handleLike and handleUnlike) leaves
currentIndex and the feed untouched for every valid index and like/unlike
action; only the clock is reset. -/
theorem onUserAction_frame (s : TrackerState) (index : Nat) (action : Action) (now : Int)
    (hvalid : index < s.restaurants.length)
    (haction : action = Action.like ∨ action = Action.unlike) :
    (onUserAction s index action now).1.currentIndex = s.currentIndex
    ∧ (onUserAction s index action now).1.restaurants = s.restaurants :=
  ⟨rfl, rfl⟩

/-- Witness for onUserAction_frame at a concrete valid state. -/
theorem onUserAction_frame_witness :
    (onUserAction (⟨[⟨"a"⟩], 0, 0, false, none⟩ : TrackerState) 0 Action.like 7).1.currentIndex
        = (⟨[⟨"a"⟩], 0, 0, false, none⟩ : TrackerState).currentIndex
    ∧ (onUserAction (⟨[⟨"a"⟩], 0, 0, false, none⟩ : TrackerState) 0 Action.like 7).1.restaurants
        = (⟨[⟨"a"⟩], 0, 0, false, none⟩ : TrackerState).restaurants :=
  onUserAction_frame _ 0 Action.like 7 (by decide) (Or.inl rfl)

/-- Claim C10: onUserAction on an index with no corresponding item emits
nothing but still resets viewStart to now, so whenever now differs from
the old viewStart the no-emission branch does change the state. -/
theorem onUserAction_invalid_resets_clock (s : TrackerState) (index : Nat) (action : Action)
    (now : Int) (h : s.restaurants.length ≤ index) :
    (onUserAction s index action now).2 = []
    ∧ (onUserAction s index action now).1 = { s with viewStart := now }
    ∧ (s.viewStart ≠ now → (onUserAction s index action now).1 ≠ s) := by
  refine ⟨by simp [onUserAction, recordViewEnd_eq_none s index action now h], rfl, ?_⟩
  intro hne heq
  exact hne (congrArg TrackerState.viewStart heq).symm

/-- Witness for onUserAction_invalid_resets_clock: one item, index 5. -/
theorem onUserAction_invalid_resets_clock_witness :
    (onUserAction (⟨[⟨"a"⟩], 0, 0, false, none⟩ : TrackerState) 5 Action.like 10).2 = []
    ∧ (onUserAction (⟨[⟨"a"⟩], 0, 0, false, none⟩ : TrackerState) 5 Action.like 10).1
        = { (⟨[⟨"a"⟩], 0, 0, false, none⟩ : TrackerState) with viewStart := 10 }
    ∧ (onUserAction (⟨[⟨"a"⟩], 0, 0, false, none⟩ : TrackerState) 5 Action.like 10).1
        ≠ (⟨[⟨"a"⟩], 0, 0, false, none⟩ : TrackerState) :=
  ⟨(onUserAction_invalid_resets_clock _ 5 Action.like 10 (by decide)).1,
    (onUserAction_invalid_resets_clock _ 5 Action.like 10 (by decide)).2.1,
    (onUserAction_invalid_resets_clock _ 5 Action.like 10 (by decide)).2.2 (by decide)⟩

/-- Claim C9: recordInteraction is gated on authentication: with no session
user it inserts nothing and raises nothing; with a session user it inserts
exactly one row carrying that user's id and the given item, action and
dwell time. -/
theorem recordInteraction_auth_gate (session : Option Session) (placeId : String)
    (action : Action) (ms : Int) :
    (session.bind Session.user = none → recordInteraction session placeId action ms = [])
    ∧ ∀ u : SessionUser, session.bind Session.user = some u →
        recordInteraction session placeId action ms = [⟨u.id, placeId, action, ms⟩] := by
  constructor
  · intro h
    simp [recordInteraction, h]
  · intro u h
    simp [recordInteraction, h]

/-- Witness for recordInteraction_auth_gate with an authenticated session. -/
theorem recordInteraction_auth_gate_witness :
    recordInteraction (some ⟨some ⟨"u1"⟩⟩) ("p1") Action.like 5
      = [⟨"u1", "p1", Action.like, 5⟩] :=
  (recordInteraction_auth_gate (some ⟨some ⟨"u1"⟩⟩) ("p1") Action.like 5).2 ⟨"u1"⟩ rfl

/-- Counterexample to claim C3 as stated: onUserAction with the
out-of-range index 5 on a one-item feed emits no event and raises no
error, yet the tracker state is not unchanged: viewStart moves from 0 to
the call time 10. -/
theorem invalid_index_counterexample :
    (onUserAction (⟨[⟨"a"⟩], 0, 0, false, none⟩ : TrackerState) 5 Action.like 10).2 = []
    ∧ (onUserAction (⟨[⟨"a"⟩], 0, 0, false, none⟩ : TrackerState) 5 Action.like 10).1.viewStart
        = 10
    ∧ (10 : Int) ≠ 0 := by
  refine ⟨rfl, rfl, by decide⟩

/-- Claim C3 (amended): a null dominant-index report (or none at all) is
ignored entirely; an out-of-range index never raises an error and never
emits an event for the invalid index, but the call is not a pure no-op:
onUserAction still resets viewStart, and handleViewableItemsChanged with
an out-of-range index different from currentIndex still emits a skip for
the previous index (when that one is valid) and adopts the out-of-range
index with a fresh viewStart. -/
theorem tracker_invalid_index_behavior (s : TrackerState) (now : Int) (j : Nat)
    (rest : List (Option Nat)) (action : Action) (hj : s.restaurants.length ≤ j) :
    handleViewableItemsChanged s [] now = (s, [])
    ∧ handleViewableItemsChanged s (none :: rest) now = (s, [])
    ∧ onUserAction s j action now = ({ s with viewStart := now }, [])
    ∧ (j ≠ s.currentIndex →
        handleViewableItemsChanged s (some j :: rest) now
          = ({ s with currentIndex := j, viewStart := now },
              (recordViewEnd s s.currentIndex Action.skip now).toList)) := by
  refine ⟨rfl, rfl, ?_, ?_⟩
  · simp [onUserAction, recordViewEnd_eq_none s j action now hj]
  · intro hne
    simp [handleViewableItemsChanged, Ne.symm hne]

/-- Witness for tracker_invalid_index_behavior: one item, index 5. -/
theorem tracker_invalid_index_behavior_witness :
    handleViewableItemsChanged (⟨[⟨"a"⟩], 0, 0, false, none⟩ : TrackerState) [] 10
        = ((⟨[⟨"a"⟩], 0, 0, false, none⟩ : TrackerState), [])
    ∧ handleViewableItemsChanged (⟨[⟨"a"⟩], 0, 0, false, none⟩ : TrackerState) [none] 10
        = ((⟨[⟨"a"⟩], 0, 0, false, none⟩ : TrackerState), [])
    ∧ onUserAction (⟨[⟨"a"⟩], 0, 0, false, none⟩ : TrackerState) 5 Action.unlike 10
        = ({ (⟨[⟨"a"⟩], 0, 0, false, none⟩ : TrackerState) with viewStart := 10 }, [])
    ∧ handleViewableItemsChanged (⟨[⟨"a"⟩], 0, 0, false, none⟩ : TrackerState) [some 5] 10
        = ({ (⟨[⟨"a"⟩], 0, 0, false, none⟩ : TrackerState) with
              currentIndex := 5, viewStart := 10 },
            (recordViewEnd (⟨[⟨"a"⟩], 0, 0, false, none⟩ : TrackerState)
              (⟨[⟨"a"⟩], 0, 0, false, none⟩ : TrackerState).currentIndex
              Action.skip 10).toList) :=
  ⟨(tracker_invalid_index_behavior _ 10 5 [] Action.unlike (by decide)).1,
    (tracker_invalid_index_behavior _ 10 5 [] Action.unlike (by decide)).2.1,
    (tracker_invalid_index_behavior _ 10 5 [] Action.unlike (by decide)).2.2.1,
    (tracker_invalid_index_behavior _ 10 5 [] Action.unlike (by decide)).2.2.2 (by decide)⟩

/-- Claim C4: on a valid index, onUserAction emits exactly one event for
that item with the given action and dwell measured from the current
viewStart, then resets viewStart to now; in particular an item shown at
t = 0, liked at t = 500 and scrolled away at t = 800 produces a like with
dwell 500 followed by a skip with dwell 300. -/
theorem onUserAction_emits_and_resets (s : TrackerState) (index : Nat) (r : Restaurant)
    (action : Action) (now : Int) (h : s.restaurants[index]? = some r) :
    onUserAction s index action now
      = ({ s with viewStart := now }, [⟨r.id, action, now - s.viewStart⟩])
    ∧ ∀ r0 r1 : Restaurant,
        (handleLike (⟨[r0, r1], 0, 0, false, none⟩ : TrackerState) 0 500).2
          = [⟨r0.id, Action.like, 500⟩]
        ∧ (handleViewableItemsChanged
            (handleLike (⟨[r0, r1], 0, 0, false, none⟩ : TrackerState) 0 500).1
            [some 1] 800).2
          = [⟨r0.id, Action.skip, 300⟩] := by
  constructor
  · simp [onUserAction, recordViewEnd_eq_some s index r action now h]
  · intro r0 r1
    constructor
    · simp [handleLike, onUserAction, recordViewEnd]
    · simp [handleLike, onUserAction, handleViewableItemsChanged, recordViewEnd]

/-- Witness for onUserAction_emits_and_resets at a concrete valid index
and concrete items for the shown/liked/scrolled scenario. -/
theorem onUserAction_emits_and_resets_witness :
    onUserAction (⟨[⟨"a"⟩, ⟨"b"⟩], 0, 2, false, none⟩ : TrackerState) 1 Action.unlike 9
      = ({ (⟨[⟨"a"⟩, ⟨"b"⟩], 0, 2, false, none⟩ : TrackerState) with viewStart := 9 },
          [⟨"b", Action.unlike,
            9 - (⟨[⟨"a"⟩, ⟨"b"⟩], 0, 2, false, none⟩ : TrackerState).viewStart⟩])
    ∧ ((handleLike (⟨[⟨"x"⟩, ⟨"y"⟩], 0, 0, false, none⟩ : TrackerState) 0 500).2
          = [⟨Restaurant.id ⟨"x"⟩, Action.like, 500⟩]
        ∧ (handleViewableItemsChanged
            (handleLike (⟨[⟨"x"⟩, ⟨"y"⟩], 0, 0, false, none⟩ : TrackerState) 0 500).1
            [some 1] 800).2
          = [⟨Restaurant.id ⟨"x"⟩, Action.skip, 300⟩]) :=
  ⟨(onUserAction_emits_and_resets (⟨[⟨"a"⟩, ⟨"b"⟩], 0, 2, false, none⟩ : TrackerState)
      1 ⟨"b"⟩ Action.unlike 9 rfl).1,
    (onUserAction_emits_and_resets (⟨[⟨"a"⟩, ⟨"b"⟩], 0, 2, false, none⟩ : TrackerState)
      1 ⟨"b"⟩ Action.unlike 9 rfl).2 ⟨"x"⟩ ⟨"y"⟩⟩

/-- Claim C5: toggling twice from liked = false emits exactly one like
event and then exactly one unlike event for the card's item (the second
dwell measured from the first toggle), and liked ends false again. -/
theorem toggle_twice_like_unlike (s : TrackerState) (index : Nat) (r : Restaurant)
    (t1 t2 : Int) (h : s.restaurants[index]? = some r) :
    (handleToggleLike false s index t1).1 = true
    ∧ (handleToggleLike false s index t1).2.2
        = [⟨r.id, Action.like, t1 - s.viewStart⟩]
    ∧ (handleToggleLike (handleToggleLike false s index t1).1
        (handleToggleLike false s index t1).2.1 index t2).1 = false
    ∧ (handleToggleLike (handleToggleLike false s index t1).1
        (handleToggleLike false s index t1).2.1 index t2).2.2
        = [⟨r.id, Action.unlike, t2 - t1⟩] := by
  have h1 : ({ s with viewStart := t1 } : TrackerState).restaurants[index]? = some r := h
  refine ⟨rfl, ?_, rfl, ?_⟩
  · simp [handleToggleLike, handleLike, onUserAction,
      recordViewEnd_eq_some s index r Action.like t1 h]
  · simp [handleToggleLike, handleLike, handleUnlike, onUserAction,
      recordViewEnd_eq_some _ index r Action.unlike t2 h1]

/-- Witness for toggle_twice_like_unlike on a concrete one-item feed. -/
theorem toggle_twice_like_unlike_witness :
    (handleToggleLike false (⟨[⟨"a"⟩], 0, 0, false, none⟩ : TrackerState) 0 4).1 = true
    ∧ (handleToggleLike false (⟨[⟨"a"⟩], 0, 0, false, none⟩ : TrackerState) 0 4).2.2
        = [⟨"a", Action.like,
            4 - (⟨[⟨"a"⟩], 0, 0, false, none⟩ : TrackerState).viewStart⟩]
    ∧ (handleToggleLike
        (handleToggleLike false (⟨[⟨"a"⟩], 0, 0, false, none⟩ : TrackerState) 0 4).1
        (handleToggleLike false (⟨[⟨"a"⟩], 0, 0, false, none⟩ : TrackerState) 0 4).2.1
        0 9).1 = false
    ∧ (handleToggleLike
        (handleToggleLike false (⟨[⟨"a"⟩], 0, 0, false, none⟩ : TrackerState) 0 4).1
        (handleToggleLike false (⟨[⟨"a"⟩], 0, 0, false, none⟩ : TrackerState) 0 4).2.1
        0 9).2.2 = [⟨"a", Action.unlike, 9 - 4⟩] :=
  toggle_twice_like_unlike _ 0 ⟨"a"⟩ 4 9 rfl

/-- Counterexample to claim C1 as stated: on a freshly loaded two-item
feed the single-report sequence with first report index 1 (valid, no
consecutive repeats, n = 0) makes the tracker emit one skip event, not
the zero events the claim promises, because the first report already
differs from the post-load currentIndex 0. -/
theorem skip_sequence_counterexample :
    (runReports (loadRestaurants (initialState 0) (LoadResult.success [⟨"a"⟩, ⟨"b"⟩]))
        [(1, 7)]).2.length = 1
    ∧ (1 : Nat) ≠ 0 :=
  ⟨rfl, by decide⟩

/-- Claim C1 (amended): for every report sequence with no two consecutive
reports equal and all reported indices valid, provided the tracker is
synchronised with the first report (its currentIndex equals the first
reported index and its viewStart equals the first report's time, as after
a load whose first dominance report is index 0 at the load time), the
tracker emits exactly one skip event per adjacent pair of reports, the
k-th carrying the id of the item at the (k-1)-th reported index and the
elapsed time between reports k-1 and k; when the first report instead
differs from currentIndex one extra leading skip is emitted. -/
theorem feed_skip_per_transition (s : TrackerState) (i0 : Nat) (t0 : Int)
    (rest : List (Nat × Int))
    (hsync : s.currentIndex = i0) (hclock : s.viewStart = t0)
    (hvalid : ∀ p ∈ (i0, t0) :: rest, p.1 < s.restaurants.length)
    (hdist : distinctAdjacent ((i0, t0) :: rest) = true) :
    (runReports s ((i0, t0) :: rest)).2 = specSkips s.restaurants ((i0, t0) :: rest)
    ∧ (runReports s ((i0, t0) :: rest)).2.length = rest.length := by
  have hstep0 : handleViewableItemsChanged s [some i0] t0 = (s, []) := by
    simp [handleViewableItemsChanged, hsync]
  have hi0 : i0 < s.restaurants.length := hvalid (i0, t0) (List.mem_cons_self _ _)
  have hall2 : ∀ q ∈ rest, q.1 < s.restaurants.length :=
    fun q hq => hvalid q (List.mem_cons_of_mem _ hq)
  have hmain := runReports_synced rest s i0 t0 hsync hclock hi0 hall2 hdist
  have hlen := specSkips_length s.restaurants ((i0, t0) :: rest) hvalid
  constructor
  · rw [runReports_cons, hstep0]
    simpa using hmain
  · rw [runReports_cons, hstep0]
    simp only [List.nil_append]
    rw [hmain, hlen]
    simp

/-- Witness for feed_skip_per_transition: two items, reports 0, 1, 0. -/
theorem feed_skip_per_transition_witness :
    (runReports (⟨[⟨"a"⟩, ⟨"b"⟩], 0, 0, false, none⟩ : TrackerState)
        [(0, 0), (1, 5), (0, 9)]).2
      = specSkips [⟨"a"⟩, ⟨"b"⟩] [(0, 0), (1, 5), (0, 9)]
    ∧ (runReports (⟨[⟨"a"⟩, ⟨"b"⟩], 0, 0, false, none⟩ : TrackerState)
        [(0, 0), (1, 5), (0, 9)]).2.length = 2 :=
  feed_skip_per_transition _ 0 0 [(1, 5), (0, 9)] rfl rfl (by decide) (by decide)

end CastIron
